import Mathlib

/-
Verification of the NASA APOD data pipeline (src/plugins/apod_etl.py and
src/dags/nasa_apod_pipeline.py) against its natural-language specification.
The Python functions are shallowly embedded as executable Lean definitions;
the theorems below settle the spec's claims about them.
-/

set_option autoImplicit false

namespace Apod

/-! ## Dictionaries (Python `dict` with string keys and values)

A raw APOD record is a JSON object; we model it as an association list with
first-match lookup (Python dicts have unique keys, so first-match equals the
dict's lookup). -/

/-- Model of Python `d.get(k)`: `none` when the key is absent. -/
def dictGet (d : List (String × String)) (k : String) : Option String :=
  match d with
  | [] => none
  | (k₁, v) :: rest => if k₁ = k then some v else dictGet rest k

/-- Model of Python `d.get(k, dflt)`. -/
def dictGetD (d : List (String × String)) (k : String) (dflt : String) : String :=
  (dictGet d k).getD dflt

/-! ## Wall-clock time (`datetime.now()`) -/

/-- Model of a Python `datetime` value, as produced by `datetime.now()`. -/
structure Datetime where
  year : Nat
  month : Nat
  day : Nat
  hour : Nat
  minute : Nat
  second : Nat
  microsecond : Nat
  deriving DecidableEq, Repr

/-- Zero-pad the decimal representation of `n` to at least `width` digits,
as Python's fixed-width integer formatting does. -/
def padNum (width n : Nat) : String :=
  let s := toString n
  if s.length < width then String.mk (List.replicate (width - s.length) '0') ++ s
  else s

/-- Model of Python `datetime.isoformat()`:
`YYYY-MM-DDTHH:MM:SS` with a `.ffffff` microsecond suffix when nonzero. -/
def Datetime.isoformat (t : Datetime) : String :=
  padNum 4 t.year ++ "-" ++ padNum 2 t.month ++ "-" ++ padNum 2 t.day ++ "T" ++
  padNum 2 t.hour ++ ":" ++ padNum 2 t.minute ++ ":" ++ padNum 2 t.second ++
  (if t.microsecond = 0 then ("") else ("." ++ padNum 6 t.microsecond))

/-! ## Error taxonomy

`requests.exceptions.RequestException` (and its `HTTPError` subclass raised by
`raise_for_status`) is the transport class; `ValueError` is the validation
class. They are distinct constructors. -/

/-- The two error classes the pipeline distinguishes. -/
inductive PipelineError where
  | transport (msg : String)
  | validation (msg : String)
  deriving DecidableEq, Repr

/-! ## DataFrames

`transform_apod_data` builds a one-row `pandas.DataFrame`; we model a frame
as an ordered list of column names plus rows of optional-string cells
(`none` models `None`/`NaN`). -/

/-- Model of a `pandas.DataFrame` with string cells; `none` models null. -/
structure DataFrame where
  columns : List String
  rows : List (List (Option String))
  deriving DecidableEq, Repr

/-- The nine output columns of `transform_apod_data`, in construction order:
the eight selected fields in dict insertion order, then the appended
`extracted_at` column. -/
def apodColumns : List String :=
  ["date", "title", "url", "explanation", "media_type",
   "hdurl", "copyright", "service_version", "extracted_at"]

/-- The eight input keys `transform_apod_data` reads from the raw record. -/
def apodInputKeys : List String :=
  ["date", "title", "url", "explanation", "media_type",
   "hdurl", "copyright", "service_version"]

/-- Embedding of `transform_apod_data` (src/plugins/apod_etl.py, lines 49-79).
The required fields use `raw_data.get(k)` (null when absent); the optional
fields use `raw_data.get(k, chr(0x22)+chr(0x22))`-style empty-string defaults;
`extracted_at` is `datetime.now().isoformat()`, passed here as `now`. -/
def transform_apod_data (raw : List (String × String)) (now : Datetime) : DataFrame :=
  { columns := apodColumns,
    rows := [[dictGet raw ("date"), dictGet raw ("title"), dictGet raw ("url"),
              dictGet raw ("explanation"), dictGet raw ("media_type"),
              some (dictGetD raw ("hdurl") ("")), some (dictGetD raw ("copyright") ("")),
              some (dictGetD raw ("service_version") ("")),
              some (Datetime.isoformat now)]] }

/-- Embedding of the DAG task `step2_transform`
(src/dags/nasa_apod_pipeline.py, lines 54-69): the raw record pulled from
XCom may be absent (`none`) or empty; Python's `if not raw_data` is true in
both cases and raises `ValueError`, a validation-class error. -/
def step2_transform (raw : Option (List (String × String))) (now : Datetime) :
    Except PipelineError DataFrame :=
  match raw with
  | none => Except.error (PipelineError.validation ("No data received from extraction step"))
  | some r =>
      if r = [] then
        Except.error (PipelineError.validation ("No data received from extraction step"))
      else
        Except.ok (transform_apod_data r now)

/-! ## Fetcher (`extract_apod_data`)

The HTTP layer (`requests.get`) is modelled as a function from the issued
request to its outcome: either a transport failure (any
`requests.exceptions.RequestException`: connection error, timeout, redirect
loop, ...) or a final response with a status code and a JSON body. -/

/-- The APOD endpoint constant (src/plugins/apod_etl.py, line 17). -/
def APOD_API_URL : String := "https://api.nasa.gov/planetary/apod"

/-- The API key constant (src/plugins/apod_etl.py, line 18). -/
def API_KEY : String := "DEMO_KEY"

/-- An HTTP response as seen after `requests.get` returns: final status code
and decoded JSON body. -/
structure HttpResponse where
  status : Nat
  body : List (String × String)
  deriving DecidableEq, Repr

/-- Outcome of one `requests.get` call: a response, or a raised
`RequestException` (connection failure, timeout, ...). -/
inductive HttpOutcome where
  | success (resp : HttpResponse)
  | failure (msg : String)
  deriving DecidableEq, Repr

/-- A request as issued by `requests.get(url, params=..., timeout=...)`. -/
structure HttpRequest where
  url : String
  params : List (String × String)
  timeout : Nat
  deriving DecidableEq, Repr

/-- The single request `extract_apod_data` issues
(src/plugins/apod_etl.py, lines 32-37): `api_key` always, `date` only when
given, timeout 30. -/
def apodRequest (date : Option String) : HttpRequest :=
  { url := APOD_API_URL,
    params := [("api_key", API_KEY)] ++
      (match date with
       | some d => [("date", d)]
       | none => []),
    timeout := 30 }

/-- Embedding of `extract_apod_data` (src/plugins/apod_etl.py, lines 21-46).
One `requests.get` call; `response.raise_for_status()` raises `HTTPError`
(a `RequestException`, hence transport class) exactly when
`400 <= status < 600`; otherwise the decoded JSON body is returned. A raised
`RequestException` is logged and re-raised unchanged. -/
def extract_apod_data (net : HttpRequest → HttpOutcome) (date : Option String) :
    Except PipelineError (List (String × String)) :=
  match net (apodRequest date) with
  | HttpOutcome.failure msg => Except.error (PipelineError.transport msg)
  | HttpOutcome.success resp =>
      if 400 ≤ resp.status ∧ resp.status < 600 then
        Except.error (PipelineError.transport (("HTTP error ") ++ toString resp.status))
      else
        Except.ok resp.body

/-! ## Relational Sink (`load_to_postgres`)

The PostgreSQL table is modelled as a list of rows. `id SERIAL` is omitted
(never read or written by the pipeline); `created_at` is kept because the
`ON CONFLICT` clause deliberately leaves it untouched. The pipeline always
supplies a non-null `date`, so SQL's NULL-never-conflicts rule is modelled
by the `isSome` guard and the `NOT NULL` check is not modelled. -/

/-- One row of the `apod_data` table (src/plugins/apod_etl.py, lines 114-128),
without the `id` serial column. -/
structure PgRow where
  date : Option String
  title : Option String
  url : Option String
  explanation : Option String
  media_type : Option String
  hdurl : Option String
  copyright : Option String
  service_version : Option String
  extracted_at : Option String
  created_at : String
  deriving DecidableEq, Repr

/-- Conversion of one DataFrame row (a 9-tuple in `apodColumns` order, as
built by `[tuple(row) for row in df.values]`) into a table row; `created`
models the `CURRENT_TIMESTAMP` default of `created_at`. -/
def rowToPg (cells : List (Option String)) (created : String) : PgRow :=
  { date := cells.getD 0 none, title := cells.getD 1 none, url := cells.getD 2 none,
    explanation := cells.getD 3 none, media_type := cells.getD 4 none,
    hdurl := cells.getD 5 none, copyright := cells.getD 6 none,
    service_version := cells.getD 7 none, extracted_at := cells.getD 8 none,
    created_at := created }

/-- Embedding of the `INSERT ... ON CONFLICT (date) DO UPDATE SET ...`
statement (src/plugins/apod_etl.py, lines 134-147): if a row with the same
non-null date exists, every listed non-key field is overwritten with the
excluded row's value (`created_at` is not listed, so it is kept); otherwise
the row is appended. -/
def upsertPg (t : List PgRow) (r : PgRow) : List PgRow :=
  if t.any (fun x => x.date == r.date && r.date.isSome) then
    t.map (fun x => if x.date == r.date then { r with created_at := x.created_at } else x)
  else
    t ++ [r]

/-- Embedding of `load_to_postgres` (src/plugins/apod_etl.py, lines 86-162).
`CREATE TABLE IF NOT EXISTS` turns an absent table into an empty one; every
DataFrame row is then upserted; the function returns `True`. The duplicate
date case is handled by the `ON CONFLICT` clause, never raised as an error
(the model is a total function whose flag is always `true`). -/
def load_to_postgres (table : Option (List PgRow)) (df : DataFrame) (now : String) :
    Option (List PgRow) × Bool :=
  (some (df.rows.foldl (fun acc cells => upsertPg acc (rowToPg cells now)) (table.getD [])),
   true)

/-! ## File Sink (`load_to_csv`)

The CSV file is modelled structurally as a header plus data rows; `read_csv`
and `to_csv(index=False)` are the evident conversions between this structure
and a DataFrame. The pipeline always writes frames with the `apodColumns`
header, so `pd.concat`'s by-name column alignment coincides with positional
concatenation here. -/

/-- A CSV file: the header row plus the data rows. -/
structure CsvFile where
  header : List String
  rows : List (List (Option String))
  deriving DecidableEq, Repr

/-- The `date` cell of a row, located by the header's `date` column, as
`drop_duplicates(subset=[chr(0x27)+...])` keys rows by the `date` column. -/
def dateCell (header : List String) (row : List (Option String)) : Option String :=
  match header.indexOf? ("date") with
  | some i => row.getD i none
  | none => none

/-- Embedding of `drop_duplicates(subset=[...], keep=...)` with the `date`
subset and last-occurrence keeping: a row is dropped exactly when a later
row has the same date key; kept rows stay in order. -/
def dropDupDateLast (header : List String) : List (List (Option String)) → List (List (Option String))
  | [] => []
  | r :: rs =>
      if rs.any (fun x => dateCell header x == dateCell header r) then dropDupDateLast header rs
      else r :: dropDupDateLast header rs

/-- Embedding of `load_to_csv` (src/plugins/apod_etl.py, lines 165-197).
If the file exists: read it, concatenate the new rows after the existing
ones, drop duplicate dates keeping the last occurrence, rewrite in full.
If not: write the frame as a new file. Either way the given `filepath`
string is returned unchanged. -/
def load_to_csv (df : DataFrame) (file : Option CsvFile) (filepath : String) :
    CsvFile × String :=
  match file with
  | some existing =>
      ({ header := existing.header,
         rows := dropDupDateLast existing.header (existing.rows ++ df.rows) }, filepath)
  | none => ({ header := df.columns, rows := df.rows }, filepath)

/-- One daily run of the File Sink with a single normalized row, at the
default path, threading the file state. -/
def fileSinkStep (file : Option CsvFile) (r : List (Option String)) : Option CsvFile :=
  some (load_to_csv { columns := apodColumns, rows := [r] } file ("data/apod_data.csv")).1

/-- N successive File Sink runs starting from no file. -/
def runFileSink (rows : List (List (Option String))) : Option CsvFile :=
  rows.foldl fileSinkStep none

/-! ## Path resolution (`step4_dvc_version_prep`) -/

/-- Model of POSIX `os.path.isabs`: the path starts with a slash. -/
def isAbs (p : String) : Bool :=
  match p.data with
  | [] => false
  | c :: _ => c == '/'

/-- Model of POSIX `os.path.abspath`: join the current working directory with
a relative path (normalization is not modelled; it never removes the leading
slash contributed by `cwd`). -/
def abspath (cwd p : String) : String :=
  if isAbs p then p else cwd ++ ("/") ++ p

/-- Embedding of the DAG task `step4_dvc_version_prep`
(src/dags/nasa_apod_pipeline.py, lines 97-105): reject an absent or empty
CSV path (`if not csv_path`) with `ValueError`, otherwise resolve it to an
absolute path before handing it to the external-process stages. -/
def step4_dvc_version_prep (csv_path : Option String) (cwd : String) :
    Except PipelineError String :=
  match csv_path with
  | none => Except.error (PipelineError.validation ("No CSV path received from load step"))
  | some p =>
      if p = "" then
        Except.error (PipelineError.validation ("No CSV path received from load step"))
      else
        Except.ok (if isAbs p then p else abspath cwd p)

/-! ## Snapshot Recorder (`task_dvc_version`)

The bash script's environment is modelled by which of its external commands
succeed and which files exist after `dvc add`. The `dvc init --no-scm ||
true` line can never change the exit code, so its success flag is carried
only for fidelity. -/

/-- Environment of the Snapshot Recorder script. -/
structure DvcEnv where
  dvcDirExists : Bool
  dvcInitOk : Bool
  dvcAddOk : Bool
  metadataExists : String → Bool

/-- Embedding of the `step4_dvc_version` BashOperator
(src/dags/nasa_apod_pipeline.py, lines 133-159): `dvc add || exit 1`, then
`exit 1` if the metadata file `CSV_PATH.dvc` is not a file; on success the
metadata path is written to the side-channel marker file and the exit code
is 0. Returns (exit code, marker content). -/
def task_dvc_version (env : DvcEnv) (csvPath : String) : Nat × Option String :=
  if !env.dvcAddOk then (1, none)
  else if !(env.metadataExists (csvPath ++ (".dvc"))) then (1, none)
  else (0, some (csvPath ++ (".dvc")))

/-! ## Change Recorder (`task_git_commit`) -/

/-- Environment of the Change Recorder script: whether `.git` exists, the
marker file's content (`none`: absent or unreadable), which paths are files,
and whether `git add` and `git commit` succeed (`gitCommitOk = false` covers
both "nothing to commit" and "git not configured"). -/
structure GitEnv where
  gitDirExists : Bool
  markerContent : Option String
  fileExists : String → Bool
  gitAddOk : Bool
  gitCommitOk : Bool

/-- How the script locates the metadata path
(src/dags/nasa_apod_pipeline.py, lines 174-179): the marker file's content,
or, when that is absent/empty, the recomputed `CSV_PATH.dvc`. -/
def resolveMetadata (marker : Option String) (absCsvPath : String) : String :=
  let m := marker.getD ("")
  if m = "" then absCsvPath ++ (".dvc") else m

/-- Embedding of the `step5_git_commit` BashOperator
(src/dags/nasa_apod_pipeline.py, lines 161-206): every no-op branch is an
explicit `exit 0`; otherwise the commit message is the fixed text followed
by the current timestamp, and the script still exits 0. Returns
(exit code, committed message if a commit was made). -/
def task_git_commit (env : GitEnv) (absCsvPath ts : String) : Nat × Option String :=
  if !env.gitDirExists then (0, none)
  else
    let meta := resolveMetadata env.markerContent absCsvPath
    if !(env.fileExists meta) then (0, none)
    else if !env.gitAddOk then (0, none)
    else if !env.gitCommitOk then (0, none)
    else (0, some (("Add DVC metadata for APOD data - ") ++ ts))

/-! ## Theorems -/

/-- C4: the transform stage fails with a validation-class error, distinct
from the transport class, when the raw record is absent (`none`) or empty,
so a caller can tell retryable absence from a transport failure. -/
theorem normalizer_empty_raises_validation (now : Datetime) :
    (∃ m, step2_transform none now = Except.error (PipelineError.validation m)) ∧
    (∃ m, step2_transform (some []) now = Except.error (PipelineError.validation m)) ∧
    (∀ a b : String, PipelineError.validation a ≠ PipelineError.transport b) := by
  refine ⟨⟨("No data received from extraction step"), rfl⟩,
    ⟨("No data received from extraction step"), by simp [step2_transform]⟩, ?_⟩
  intro a b h
  exact PipelineError.noConfusion h

/-- C7: the Snapshot Recorder exits 0 exactly when `dvc add` succeeded and
the metadata file at `<csv-path>.dvc` exists afterwards; in every other case
it exits 1 — the missing-metadata condition is never downgraded to success. -/
theorem dvc_version_fails_on_missing_metadata (env : DvcEnv) (p : String) :
    ((task_dvc_version env p).1 = 0 ↔
      env.dvcAddOk = true ∧ env.metadataExists (p ++ (".dvc")) = true) ∧
    ((task_dvc_version env p).1 = 0 ∨ (task_dvc_version env p).1 = 1) := by
  unfold task_dvc_version
  cases h1 : env.dvcAddOk <;> cases h2 : env.metadataExists (p ++ (".dvc")) <;>
    simp [h1, h2]

/-- C8: the Change Recorder always exits 0; it either makes no commit (in
each acceptable no-op case: no repository, metadata not locatable, staging
failure, nothing to commit) or commits with a message that is the fixed
text followed by the current timestamp, and it commits exactly when the
repository exists, the located metadata file exists, and both `git add` and
`git commit` succeed. -/
theorem git_commit_best_effort (env : GitEnv) (absCsvPath ts : String) :
    (task_git_commit env absCsvPath ts).1 = 0 ∧
    ((task_git_commit env absCsvPath ts).2 = none ∨
      (task_git_commit env absCsvPath ts).2 =
        some (("Add DVC metadata for APOD data - ") ++ ts)) ∧
    ((task_git_commit env absCsvPath ts).2 =
        some (("Add DVC metadata for APOD data - ") ++ ts) ↔
      env.gitDirExists = true ∧
      env.fileExists (resolveMetadata env.markerContent absCsvPath) = true ∧
      env.gitAddOk = true ∧ env.gitCommitOk = true) := by
  unfold task_git_commit
  cases h1 : env.gitDirExists <;>
    cases h2 : env.fileExists (resolveMetadata env.markerContent absCsvPath) <;>
      cases h3 : env.gitAddOk <;> cases h4 : env.gitCommitOk <;> simp [h1, h2, h3, h4]

/-- The isoformat of any datetime is a non-empty string: it contains the
literal date/time separators. -/
theorem isoformat_ne_empty (t : Datetime) : Datetime.isoformat t ≠ ("") := by
  intro h
  have hlen := congrArg String.length h
  have h1 : String.length ("-") = 1 := rfl
  have h0 : String.length ("") = 0 := rfl
  simp only [Datetime.isoformat, String.length_append, h1, h0] at hlen
  omega

/-- C3: on a valid raw record (the five required fields present, the three
optional fields absent) the Normalizer copies `date`, `title`, `url`,
`explanation` and `media_type` verbatim, turns the absent `hdurl`,
`copyright` and `service_version` into the empty string (not null), and
attaches a non-empty `extracted_at` timestamp. -/
theorem normalizer_valid_record (raw : List (String × String)) (now : Datetime)
    (d t u e m : String)
    (hd : dictGet raw ("date") = some d) (ht : dictGet raw ("title") = some t)
    (hu : dictGet raw ("url") = some u) (he : dictGet raw ("explanation") = some e)
    (hm : dictGet raw ("media_type") = some m)
    (hh : dictGet raw ("hdurl") = none) (hc : dictGet raw ("copyright") = none)
    (hs : dictGet raw ("service_version") = none) :
    transform_apod_data raw now =
      { columns := apodColumns,
        rows := [[some d, some t, some u, some e, some m,
                  some (""), some (""), some (""), some (Datetime.isoformat now)]] } ∧
    Datetime.isoformat now ≠ ("") := by
  refine ⟨?_, isoformat_ne_empty now⟩
  simp [transform_apod_data, dictGetD, hd, ht, hu, he, hm, hh, hc, hs]

/-- The raw record of the spec's scenario: five required fields, no optional
ones. -/
def specScenarioRaw : List (String × String) :=
  [("date", "2024-05-01"), ("title", "T"), ("url", "u"),
   ("explanation", "e"), ("media_type", "image")]

/-- A sample wall-clock instant for concrete evaluations. -/
def sampleNow : Datetime :=
  { year := 2024, month := 5, day := 1, hour := 12, minute := 0, second := 0,
    microsecond := 0 }

/-- Witness for C3 at the spec's scenario record. -/
theorem normalizer_valid_record_witness :
    dictGet specScenarioRaw ("date") = some ("2024-05-01") ∧
    dictGet specScenarioRaw ("hdurl") = none ∧
    (transform_apod_data specScenarioRaw sampleNow =
      { columns := apodColumns,
        rows := [[some ("2024-05-01"), some ("T"), some ("u"), some ("e"), some ("image"),
                  some (""), some (""), some (""), some (Datetime.isoformat sampleNow)]] } ∧
     Datetime.isoformat sampleNow ≠ ("")) :=
  ⟨rfl, rfl,
   normalizer_valid_record specScenarioRaw sampleNow ("2024-05-01") ("T") ("u") ("e")
     ("image") rfl rfl rfl rfl rfl rfl rfl rfl⟩

/-- C10: for every raw dict, the Normalizer returns a one-row table with the
nine fixed columns in order; a key outside the eight it reads is ignored;
a missing required key (`date`) yields a null cell, not an error. -/
theorem transform_shape (raw : List (String × String)) (now : Datetime) :
    (transform_apod_data raw now).columns = apodColumns ∧
    (transform_apod_data raw now).rows.length = 1 ∧
    (∀ k v, k ∉ apodInputKeys →
      transform_apod_data ((k, v) :: raw) now = transform_apod_data raw now) ∧
    (dictGet raw ("date") = none →
      ∃ rest, (transform_apod_data raw now).rows = [none :: rest]) := by
  refine ⟨rfl, rfl, ?_, ?_⟩
  · intro k v hk
    simp only [apodInputKeys, List.mem_cons, List.not_mem_nil, or_false, not_or] at hk
    obtain ⟨h1, h2, h3, h4, h5, h6, h7, h8⟩ := hk
    simp [transform_apod_data, dictGetD, dictGet, h1, h2, h3, h4, h5, h6, h7, h8]
  · intro hdnone
    refine ⟨[dictGet raw ("title"), dictGet raw ("url"), dictGet raw ("explanation"),
      dictGet raw ("media_type"), some (dictGetD raw ("hdurl") ("")),
      some (dictGetD raw ("copyright") ("")), some (dictGetD raw ("service_version") ("")),
      some (Datetime.isoformat now)], ?_⟩
    simp [transform_apod_data, hdnone]

/-- Witness for C10: an unread key is ignored, and a record with no `date`
key yields a null date cell. -/
theorem transform_shape_witness :
    ((("zzz") ∉ apodInputKeys) ∧
      transform_apod_data ((("zzz"), ("1")) :: []) sampleNow =
        transform_apod_data [] sampleNow) ∧
    (dictGet [] ("date") = none ∧
      ∃ rest, (transform_apod_data [] sampleNow).rows = [none :: rest]) :=
  ⟨⟨by decide, (transform_shape [] sampleNow).2.2.1 ("zzz") ("1") (by decide)⟩,
   ⟨rfl, (transform_shape [] sampleNow).2.2.2 rfl⟩⟩

/-- The File Sink returns the filepath it was given, in both branches. -/
theorem load_to_csv_returns_filepath (df : DataFrame) (file : Option CsvFile) (fp : String) :
    (load_to_csv df file fp).2 = fp := by
  cases file <;> rfl

/-- Prepending an absolute string keeps a path absolute. -/
theorem isAbs_append (a b : String) (h : isAbs a = true) : isAbs (a ++ b) = true := by
  unfold isAbs at h ⊢
  rw [String.data_append]
  cases hd : a.data with
  | nil => simp [hd] at h
  | cons c cs =>
      rw [hd] at h
      simpa using h

/-- Joining a relative path onto an absolute working directory yields an
absolute path. -/
theorem isAbs_abspath (cwd p : String) (h : isAbs cwd = true) :
    isAbs (abspath cwd p) = true := by
  unfold abspath
  by_cases hp : isAbs p = true
  · simp [hp]
  · simp only [hp, if_false, Bool.false_eq_true, ite_false]
    exact isAbs_append _ _ (isAbs_append _ _ h)

/-- C9: the path returned by the File Sink is resolved to an absolute form
by `step4_dvc_version_prep` before it reaches the stages that invoke
external processes: whenever the prep step succeeds (with an absolute
working directory, as `os.getcwd()` always is), its output is absolute. -/
theorem csv_path_resolved_absolute (df : DataFrame) (file : Option CsvFile)
    (fp cwd r : String) (hcwd : isAbs cwd = true)
    (hok : step4_dvc_version_prep (some ((load_to_csv df file fp).2)) cwd = Except.ok r) :
    isAbs r = true := by
  rw [load_to_csv_returns_filepath] at hok
  simp only [step4_dvc_version_prep] at hok
  by_cases hfp : fp = ""
  · simp [hfp] at hok
  · rw [if_neg hfp] at hok
    injection hok with h2
    subst h2
    by_cases hp : isAbs fp = true
    · simp [hp]
    · simp only [hp, if_false, Bool.false_eq_true, ite_false]
      exact isAbs_abspath cwd fp hcwd

/-- Witness for C9 at the pipeline's actual default path and working
directory. -/
theorem csv_path_resolved_absolute_witness :
    isAbs ("/opt/airflow") = true ∧
    step4_dvc_version_prep
        (some ((load_to_csv { columns := apodColumns, rows := [] } none
          ("data/apod_data.csv")).2)) ("/opt/airflow") =
      Except.ok ("/opt/airflow/data/apod_data.csv") ∧
    isAbs ("/opt/airflow/data/apod_data.csv") = true :=
  ⟨rfl, rfl,
   csv_path_resolved_absolute { columns := apodColumns, rows := [] } none
     ("data/apod_data.csv") ("/opt/airflow") ("/opt/airflow/data/apod_data.csv") rfl rfl⟩

/-- A network whose single APOD request yields a final 304 response. -/
def net304 : HttpRequest → HttpOutcome :=
  fun _ => HttpOutcome.success { status := 304, body := [("date", "2024-05-01")] }

/-- C5 counterexample: the claim says any non-2xx status raises a
transport-class error, but `raise_for_status` only raises for statuses in
[400, 600): on a final 304 response the Fetcher returns the body. -/
theorem fetcher_non_2xx_counterexample :
    extract_apod_data net304 none = Except.ok [(("date"), ("2024-05-01"))] ∧
    net304 (apodRequest none) =
      HttpOutcome.success { status := 304, body := [(("date"), ("2024-05-01"))] } ∧
    ¬ (200 ≤ 304 ∧ 304 < 300) := by
  refine ⟨?_, rfl, by omega⟩
  rfl

/-- C5 (amended): the Fetcher issues exactly one request, carrying timeout
30 — its result depends only on the network's answer to `apodRequest date` —
and it either propagates a transport-class error (on transport failure or on
a 4xx/5xx status) or returns exactly the successful response's record; it
never returns a partial or empty record for a failed fetch and never
retries. -/
theorem fetcher_contract (date : Option String) (net net' : HttpRequest → HttpOutcome)
    (hagree : net (apodRequest date) = net' (apodRequest date)) :
    (apodRequest date).timeout = 30 ∧
    extract_apod_data net date = extract_apod_data net' date ∧
    ((∃ m, extract_apod_data net date = Except.error (PipelineError.transport m)) ∨
      (∃ resp, net (apodRequest date) = HttpOutcome.success resp ∧
        ¬ (400 ≤ resp.status ∧ resp.status < 600) ∧
        extract_apod_data net date = Except.ok resp.body)) := by
  refine ⟨rfl, ?_, ?_⟩
  · unfold extract_apod_data
    rw [hagree]
  · unfold extract_apod_data
    cases hnet : net (apodRequest date) with
    | failure msg => exact Or.inl ⟨msg, rfl⟩
    | success resp =>
        by_cases hs : 400 ≤ resp.status ∧ resp.status < 600
        · exact Or.inl ⟨("HTTP error ") ++ toString resp.status, by simp [hs]⟩
        · exact Or.inr ⟨resp, rfl, hs, by simp [hs]⟩

/-- A network whose single APOD request yields a 200 response with the
spec's scenario record. -/
def net200 : HttpRequest → HttpOutcome :=
  fun _ => HttpOutcome.success { status := 200, body := specScenarioRaw }

/-- Witness for the amended C5 at a concrete network. -/
theorem fetcher_contract_witness :
    (apodRequest none).timeout = 30 ∧
    extract_apod_data net200 none = extract_apod_data net200 none ∧
    ((∃ m, extract_apod_data net200 none = Except.error (PipelineError.transport m)) ∨
      (∃ resp, net200 (apodRequest none) = HttpOutcome.success resp ∧
        ¬ (400 ≤ resp.status ∧ resp.status < 600) ∧
        extract_apod_data net200 none = Except.ok resp.body)) :=
  fetcher_contract none net200 net200 rfl

/-- In the de-duplication with last-occurrence keeping, the rows sharing the
final row's date key reduce to exactly that final row. -/
theorem dropDup_last_occurrence (hdr : List String) (xs : List (List (Option String)))
    (r : List (Option String)) :
    (dropDupDateLast hdr (xs ++ [r])).filter
      (fun x => dateCell hdr x == dateCell hdr r) = [r] := by
  induction xs with
  | nil => simp [dropDupDateLast]
  | cons x xs ih =>
      cases h : (xs ++ [r]).any (fun y => dateCell hdr y == dateCell hdr x) with
      | true =>
          have hstep : dropDupDateLast hdr ((x :: xs) ++ [r]) =
              dropDupDateLast hdr (xs ++ [r]) := by
            rw [List.cons_append]
            simp [dropDupDateLast, List.append_eq, h]
          rw [hstep]
          exact ih
      | false =>
          have hr : ¬ ((dateCell hdr r == dateCell hdr x) = true) :=
            List.any_eq_false.mp h r (List.mem_append_right xs (List.mem_singleton.mpr rfl))
          have hne : dateCell hdr r ≠ dateCell hdr x := by
            intro he
            exact hr (by simp [he])
          have hxr : (dateCell hdr x == dateCell hdr r) = false :=
            beq_eq_false_iff_ne.mpr (Ne.symm hne)
          have hstep : dropDupDateLast hdr ((x :: xs) ++ [r]) =
              x :: dropDupDateLast hdr (xs ++ [r]) := by
            rw [List.cons_append]
            simp [dropDupDateLast, List.append_eq, h]
          rw [hstep, List.filter_cons, hxr]
          simp only [Bool.false_eq_true, if_false, ite_false]
          exact ih

/-- C2: giving the File Sink a row whose date already occurs in the existing
file leaves exactly one row for that date in the rewritten file, and it is
the newly appended row, with its field values retained. -/
theorem file_sink_last_write_wins (f : CsvFile) (r : List (Option String))
    (fp : String) (d : String) (hd : dateCell f.header r = some d)
    (_hdup : (f.rows.any fun x => dateCell f.header x == some d) = true) :
    (((load_to_csv { columns := f.header, rows := [r] } (some f) fp).1).rows.filter
      (fun x => dateCell f.header x == some d)) = [r] := by
  have h := dropDup_last_occurrence f.header f.rows r
  simp only [hd] at h
  simpa [load_to_csv] using h

/-- An existing one-row file for the C2 witness. -/
def wExistingFile : CsvFile :=
  { header := apodColumns,
    rows := [[some ("2024-05-01"), some ("Old"), some ("u1"), some ("e1"), some ("image"),
              some (""), some (""), some (""), some ("t1")]] }

/-- A freshly normalized row with the same date but different values. -/
def wNewRow : List (Option String) :=
  [some ("2024-05-01"), some ("New"), some ("u2"), some ("e2"), some ("image"),
   some ("h2"), some ("c2"), some ("v2"), some ("t2")]

/-- Witness for C2 at a concrete duplicate-date append. -/
theorem file_sink_last_write_wins_witness :
    dateCell wExistingFile.header wNewRow = some ("2024-05-01") ∧
    (wExistingFile.rows.any fun x =>
      dateCell wExistingFile.header x == some ("2024-05-01")) = true ∧
    (((load_to_csv { columns := wExistingFile.header, rows := [wNewRow] }
        (some wExistingFile) ("data/apod_data.csv")).1).rows.filter
      (fun x => dateCell wExistingFile.header x == some ("2024-05-01"))) = [wNewRow] :=
  ⟨rfl, rfl,
   file_sink_last_write_wins wExistingFile wNewRow ("data/apod_data.csv")
     ("2024-05-01") rfl rfl⟩

/-- De-duplication is the identity on a row list with pairwise distinct
date keys. -/
theorem dropDup_of_pairwise (hdr : List String) (l : List (List (Option String)))
    (h : l.Pairwise fun a b => dateCell hdr a ≠ dateCell hdr b) :
    dropDupDateLast hdr l = l := by
  induction l with
  | nil => rfl
  | cons x xs ih =>
      obtain ⟨hx, hxs⟩ := List.pairwise_cons.mp h
      have hany : (xs.any fun y => dateCell hdr y == dateCell hdr x) = false := by
        apply List.any_eq_false.mpr
        intro y hy hbeq
        have heq : dateCell hdr y = dateCell hdr x := by simpa using hbeq
        exact hx y hy heq.symm
      simp [dropDupDateLast, hany, ih hxs]

/-- Folding the File Sink over rows with pairwise distinct dates (together
with the rows already in the file) extends the file by exactly those rows,
in order. -/
theorem runFileSink_go (rows : List (List (Option String))) :
    ∀ acc : List (List (Option String)),
      ((acc ++ rows).Pairwise fun a b => dateCell apodColumns a ≠ dateCell apodColumns b) →
      rows.foldl fileSinkStep (some { header := apodColumns, rows := acc }) =
        some { header := apodColumns, rows := acc ++ rows } := by
  induction rows with
  | nil =>
      intro acc _
      simp
  | cons r rs ih =>
      intro acc hpw
      have hsub : List.Sublist (acc ++ [r]) (acc ++ (r :: rs)) :=
        List.Sublist.append_left (List.Sublist.cons₂ r (List.nil_sublist rs)) acc
      have hid : dropDupDateLast apodColumns (acc ++ [r]) = acc ++ [r] :=
        dropDup_of_pairwise _ _ (List.Pairwise.sublist hsub hpw)
      have hstep : fileSinkStep (some { header := apodColumns, rows := acc }) r =
          some { header := apodColumns, rows := acc ++ [r] } := by
        simp [fileSinkStep, load_to_csv, hid]
      rw [List.foldl_cons, hstep]
      have hgoal := ih (acc ++ [r]) (by simpa using hpw)
      simpa using hgoal

/-- C6: starting from no file, N File Sink runs with N pairwise-distinct
dates are cumulative: the final file holds exactly N data rows plus the
header row. -/
theorem file_sink_cumulative (rows : List (List (Option String)))
    (hne : rows ≠ [])
    (hdist : rows.Pairwise fun a b => dateCell apodColumns a ≠ dateCell apodColumns b) :
    ∃ f, runFileSink rows = some f ∧ f.header = apodColumns ∧
      f.rows.length = rows.length := by
  cases rows with
  | nil => exact absurd rfl hne
  | cons r rs =>
      refine ⟨{ header := apodColumns, rows := r :: rs }, ?_, rfl, rfl⟩
      unfold runFileSink
      rw [List.foldl_cons]
      have h1 : fileSinkStep none r = some { header := apodColumns, rows := [r] } := rfl
      rw [h1]
      have hgo := runFileSink_go rs [r] (by simpa using hdist)
      simpa using hgo

/-- A normalized row dated 2024-05-01 for concrete runs. -/
def wRow1 : List (Option String) :=
  [some ("2024-05-01"), some ("A"), some ("u1"), some ("e1"), some ("image"),
   some (""), some (""), some (""), some ("t1")]

/-- A normalized row dated 2024-05-02 for concrete runs. -/
def wRow2 : List (Option String) :=
  [some ("2024-05-02"), some ("B"), some ("u2"), some ("e2"), some ("image"),
   some (""), some (""), some (""), some ("t2")]

/-- Witness for C6: two runs with two distinct dates leave a two-row file. -/
theorem file_sink_cumulative_witness :
    ([wRow1, wRow2] ≠ ([] : List (List (Option String)))) ∧
    ([wRow1, wRow2].Pairwise fun a b => dateCell apodColumns a ≠ dateCell apodColumns b) ∧
    (∃ f, runFileSink [wRow1, wRow2] = some f ∧ f.header = apodColumns ∧
      f.rows.length = [wRow1, wRow2].length) :=
  ⟨by simp, by decide, file_sink_cumulative [wRow1, wRow2] (by simp) (by decide)⟩

/-- Equality of the eight non-key fields the upsert's `DO UPDATE` clause
overwrites — everything the pipeline supplies except the key `date`. -/
def samePayload (x y : PgRow) : Prop :=
  x.title = y.title ∧ x.url = y.url ∧ x.explanation = y.explanation ∧
  x.media_type = y.media_type ∧ x.hdurl = y.hdurl ∧ x.copyright = y.copyright ∧
  x.service_version = y.service_version ∧ x.extracted_at = y.extracted_at

/-- Counting with pointwise equal predicates gives equal counts. -/
theorem countP_congr_on {α : Type} (p q : α → Bool) (l : List α)
    (h : ∀ a ∈ l, p a = q a) : l.countP p = l.countP q := by
  induction l with
  | nil => rfl
  | cons a l ih =>
      rw [List.countP_cons, List.countP_cons, h a (List.mem_cons_self a l),
        ih (fun b hb => h b (List.mem_cons_of_mem a hb))]

/-- The upsert, applied to a table with at most one row for date `d` and a
row keyed by `d`, leaves exactly one row for `d`, and every row for `d`
carries the new row's non-key fields. -/
theorem upsertPg_semantics (t : List PgRow) (r : PgRow) (d : String)
    (hd : r.date = some d)
    (hinv : (t.countP fun x => x.date == some d) ≤ 1) :
    ((upsertPg t r).countP fun x => x.date == some d) = 1 ∧
    ∀ x ∈ upsertPg t r, x.date = some d → samePayload x r := by
  unfold upsertPg
  cases hany : t.any (fun x => x.date == r.date && r.date.isSome) with
  | false =>
      simp only [hany, Bool.false_eq_true, if_false, ite_false]
      have hzero : (t.countP fun x => x.date == some d) = 0 := by
        apply List.countP_eq_zero.mpr
        intro a ha hbeq
        have hcontra := List.any_eq_false.mp hany a ha
        rw [hd] at hcontra
        exact hcontra (by simp [hbeq])
      constructor
      · rw [List.countP_append, hzero]
        simp [List.countP_cons, hd]
      · intro x hx hxd
        rcases List.mem_append.mp hx with hx | hx
        · exact absurd (by simp [hxd]) (List.countP_eq_zero.mp hzero x hx)
        · rw [List.mem_singleton.mp hx]
          exact ⟨rfl, rfl, rfl, rfl, rfl, rfl, rfl, rfl⟩
  | true =>
      simp only [hany, if_true]
      constructor
      · rw [List.countP_map]
        have hcnt : (t.countP ((fun x => x.date == some d) ∘ fun x =>
            if x.date == r.date then { r with created_at := x.created_at } else x)) =
            (t.countP fun x => x.date == some d) := by
          apply countP_congr_on
          intro a _
          cases hcond : (a.date == r.date) with
          | true =>
              have haeq : a.date = r.date := by simpa using hcond
              simp [Function.comp, hcond, haeq]
          | false => simp [Function.comp, hcond]
        rw [hcnt]
        obtain ⟨a, ha, hpa⟩ := List.any_eq_true.mp hany
        have hone : 0 < (t.countP fun x => x.date == some d) := by
          apply List.countP_pos_iff.mpr
          refine ⟨a, ha, ?_⟩
          have had : (a.date == r.date) = true := by
            cases hb : (a.date == r.date) <;> simp [hb] at hpa ⊢
          rw [hd] at had
          simpa using had
        omega
      · intro x hx hxd
        obtain ⟨y, hy, hfy⟩ := List.mem_map.mp hx
        cases hcond : (y.date == r.date) with
        | true =>
            rw [hcond] at hfy
            simp only [if_true] at hfy
            rw [← hfy]
            exact ⟨rfl, rfl, rfl, rfl, rfl, rfl, rfl, rfl⟩
        | false =>
            rw [hcond] at hfy
            simp only [Bool.false_eq_true, if_false, ite_false] at hfy
            rw [← hfy] at hxd
            rw [hxd, hd] at hcond
            simp at hcond

/-- C1: running the Relational Sink twice with one-row frames carrying the
same date, from any table state with at most one row for that date (the
UNIQUE constraint's invariant), leaves exactly one row for that date, whose
non-key fields — including `extracted_at` — are the second run's values; the
run reports success (`True`), so the duplicate-date conflict is never
surfaced as an error. -/
theorem relational_sink_last_write_wins (t0 : List PgRow)
    (cells1 cells2 : List (Option String)) (n1 n2 d : String)
    (h1 : cells1.getD 0 none = some d) (h2 : cells2.getD 0 none = some d)
    (hinv : (t0.countP fun x => x.date == some d) ≤ 1) :
    (load_to_postgres
      (load_to_postgres (some t0) { columns := apodColumns, rows := [cells1] } n1).1
      { columns := apodColumns, rows := [cells2] } n2).2 = true ∧
    ∃ t2,
      (load_to_postgres
        (load_to_postgres (some t0) { columns := apodColumns, rows := [cells1] } n1).1
        { columns := apodColumns, rows := [cells2] } n2).1 = some t2 ∧
      (t2.countP fun x => x.date == some d) = 1 ∧
      ∀ x ∈ t2, x.date = some d → samePayload x (rowToPg cells2 n2) := by
  have hr1 : (rowToPg cells1 n1).date = some d := h1
  have hr2 : (rowToPg cells2 n2).date = some d := h2
  have step1 := upsertPg_semantics t0 (rowToPg cells1 n1) d hr1 hinv
  have step2 := upsertPg_semantics (upsertPg t0 (rowToPg cells1 n1))
    (rowToPg cells2 n2) d hr2 step1.1.le
  exact ⟨rfl, upsertPg (upsertPg t0 (rowToPg cells1 n1)) (rowToPg cells2 n2),
    rfl, step2.1, step2.2⟩

/-- A first-run tuple for the C1 witness. -/
def wCells1 : List (Option String) :=
  [some ("2024-05-01"), some ("A"), some ("u1"), some ("e1"), some ("image"),
   some (""), some (""), some (""), some ("t1")]

/-- A second-run tuple with the same date and different non-key values. -/
def wCells2 : List (Option String) :=
  [some ("2024-05-01"), some ("B"), some ("u2"), some ("e2"), some ("video"),
   some ("h2"), some ("c2"), some ("v2"), some ("t2")]

/-- Witness for C1 at a fresh table and two concrete same-date runs. -/
theorem relational_sink_last_write_wins_witness :
    wCells1.getD 0 none = some ("2024-05-01") ∧
    wCells2.getD 0 none = some ("2024-05-01") ∧
    (([] : List PgRow).countP fun x => x.date == some ("2024-05-01")) ≤ 1 ∧
    ((load_to_postgres
        (load_to_postgres (some ([] : List PgRow))
          { columns := apodColumns, rows := [wCells1] } ("c1")).1
        { columns := apodColumns, rows := [wCells2] } ("c2")).2 = true ∧
      ∃ t2,
        (load_to_postgres
          (load_to_postgres (some ([] : List PgRow))
            { columns := apodColumns, rows := [wCells1] } ("c1")).1
          { columns := apodColumns, rows := [wCells2] } ("c2")).1 = some t2 ∧
        (t2.countP fun x => x.date == some ("2024-05-01")) = 1 ∧
        ∀ x ∈ t2, x.date = some ("2024-05-01") →
          samePayload x (rowToPg wCells2 ("c2"))) :=
  ⟨rfl, rfl, by decide,
   relational_sink_last_write_wins [] wCells1 wCells2 ("c1") ("c2") ("2024-05-01")
     rfl rfl (by decide)⟩

end Apod
